import Mathlib

/-!
Shallow embedding of the `wcape/fence` browser client
(`src/Videos/Bodicise/assets/js/api-client.js` and the utility module
`src/unnamed/part_000`), together with theorems settling the spec claims.

JavaScript conventions used throughout the embedding:
* a function that returns `null` to signal absence is modelled with `Option`;
* object-spread merges (`\x7b ...a, ...b \x7d`) are top-level (shallow) merges;
* machine time (`Date.now()`) is an `Int` parameter threaded explicitly;
* `class` bodies are strict-mode code, so assigning to a `const` binding
  throws a `TypeError` at runtime; the embedding models that thrown error
  explicitly.
-/

namespace Fence

/-! ## JavaScript-style values (used where the source branches on truthiness) -/

/-- A small model of JavaScript runtime values, sufficient for the cache
helpers, which branch on the truthiness of stored data (`if (cached)`). -/
inductive JSV : Type
  | vNull : JSV
  | vBool (b : Bool) : JSV
  | vNum (n : Int) : JSV
  | vStr (s : String) : JSV
  | vObj (fields : List (String × JSV)) : JSV
  deriving Repr

/-- JavaScript truthiness of a value: `null`, `false`, `0` and `""` are
falsy; every object is truthy. -/
def JSV.truthy : JSV → Bool
  | .vNull => false
  | .vBool b => b
  | .vNum n => n != 0
  | .vStr s => s != ""
  | .vObj _ => true

/-! ## `isValidCreditCard` (src/unnamed/part_000, lines 323-344)

```js
static isValidCreditCard(cardNumber) \x7b
    const digits = cardNumber.replace(/\D/g, '');
    let sum = 0;
    let isEven = false;
    for (let i = digits.length - 1; i >= 0; i--) \x7b
        let digit = parseInt(digits[i]);
        if (isEven) \x7b
            digit *= 2;
            if (digit > 9) digit -= 9;
        \x7d
        sum += digit;
        isEven = !isEven;
    \x7d
    return sum % 10 === 0;
\x7d
```
-/

/-- `cardNumber.replace(/\D/g, '')`: keep only the decimal digits. -/
def stripNonDigits (s : String) : List Char :=
  s.data.filter Char.isDigit

/-- The loop body of `isValidCreditCard`, walking the digit list from the
rightmost digit (the source iterates `i` from `digits.length - 1` down to 0;
here the list is reversed first, so the head is the rightmost digit).
The flag is `isEven`, initially `false`, toggled each step. -/
def luhnSumRev : List Nat → Bool → Nat
  | [], _ => 0
  | d :: rest, isEven =>
      let digit := if isEven then (if d * 2 > 9 then d * 2 - 9 else d * 2) else d
      digit + luhnSumRev rest (!isEven)

/-- `isValidCreditCard` from the utility module: strip non-digits, take the
Luhn sum over the digits from right to left, succeed iff it is divisible
by 10. -/
def isValidCreditCard (cardNumber : String) : Bool :=
  let digits := (stripNonDigits cardNumber).map (fun c => c.toNat - 48)
  luhnSumRev digits.reverse false % 10 == 0

/-! ## TTL cache (`setCache` / `getCache` / `clearCache`,
api-client.js lines 587-612)

The cache is a `Map` from string keys to entries
`\x7b data, timestamp, timeout \x7d`.  `Date.now()` is modelled as an
explicit `Int` argument. -/

/-- One cache entry: `\x7b data, timestamp: Date.now(), timeout \x7d`. -/
structure CacheEntry (α : Type) where
  data : α
  timestamp : Int
  timeout : Int
  deriving Repr, DecidableEq

/-- The cache `Map`, as an association list with `Map.set` semantics
(setting a key replaces any previous binding). -/
def CacheMap (α : Type) := List (String × CacheEntry α)

/-- `Map.get`: first (only) binding for the key. -/
def CacheMap.get (c : CacheMap α) (key : String) : Option (CacheEntry α) :=
  (List.find? (fun p => p.1 == key) c).map (·.2)

/-- `Map.set`: replace any existing binding for the key. -/
def CacheMap.set (c : CacheMap α) (key : String) (e : CacheEntry α) : CacheMap α :=
  (key, e) :: List.filter (fun p => !(p.1 == key)) c

/-- `Map.delete`. -/
def CacheMap.del (c : CacheMap α) (key : String) : CacheMap α :=
  List.filter (fun p => !(p.1 == key)) c

/-- The default cache timeout, `5 * 60 * 1000` ms. -/
def cacheTimeout : Int := 5 * 60 * 1000

/-- `setCache(key, data, timeout = this.cacheTimeout)` at time `now`. -/
def setCache (c : CacheMap α) (now : Int) (key : String) (data : α)
    (timeout : Int := cacheTimeout) : CacheMap α :=
  c.set key { data := data, timestamp := now, timeout := timeout }

/-- `getCache(key)` at time `now`: returns `null` (`none`) when the key is
absent; when `Date.now() - timestamp > timeout` it deletes the entry and
returns `null`; otherwise it returns the stored data.  The returned pair is
(result, cache after the call). -/
def getCache (c : CacheMap α) (now : Int) (key : String) :
    Option α × CacheMap α :=
  match c.get key with
  | none => (none, c)
  | some cached =>
      if now - cached.timestamp > cached.timeout then
        (none, c.del key)
      else
        (some cached.data, c)

/-- `clearCache()`. -/
def clearCache (_c : CacheMap α) : CacheMap α := []

/-! ## Request configuration (`request`, api-client.js lines 75-86)

```js
const config = \x7b
    method: 'GET',
    headers: \x7b ...this.defaultHeaders \x7d,
    ...options
\x7d;
```

A plain JS object maps string keys to values; the spread `...options` is a
TOP-LEVEL merge: any `headers` field of `options` replaces the whole
default-headers object. -/

/-- A JS object of string-valued header fields, as an association list with
distinct keys (object keys are unique). -/
abbrev Headers := List (String × String)

/-- Reading a field of a JS header object (`config.headers['Content-Type']`):
`none` models the field being absent (`undefined`). -/
def headerGet (hs : Headers) (k : String) : Option String :=
  (List.find? (fun p => p.1 == k) hs).map (·.2)

/-- `ApiClient.defaultHeaders`. -/
def defaultHeaders : Headers :=
  [("Content-Type", "application/json"), ("Accept", "application/json")]

/-- The caller-supplied `options` object of `request`: each field is either
absent (not spread over the config) or present (replacing the default
top-level field wholesale). -/
structure RequestOptions where
  method : Option String := none
  headers : Option Headers := none
  body : Option String := none

/-- The request config after the object literal at lines 77-81: `GET` and a
copy of the default headers, each top-level field overridden wholesale by
`options` when present. -/
structure Config where
  method : String
  headers : Headers
  body : Option String
  deriving Repr, DecidableEq

/-- Lines 77-81 of `request`: build the initial config from the defaults and
the spread of `options`. -/
def buildConfig (options : RequestOptions) : Config :=
  { method := options.method.getD "GET"
  , headers := options.headers.getD defaultHeaders
  , body := options.body }

/-! ## Interceptor stages of `request` (api-client.js lines 83-126)

The request-interceptor loop (lines 84-86) reads

```js
for (const interceptor of this.requestInterceptors) \x7b
    config = interceptor(config);
\x7d
```

but `config` was declared with `const` at line 77.  Class bodies are strict
mode, so the first assignment throws
`TypeError: Assignment to constant variable.` — the interceptor itself is
called (its argument is evaluated first), but its result is discarded and
the `TypeError` propagates out of `request`, BEFORE the `try` block, so the
response interceptors' failure callbacks never see it. -/

/-- Errors that can escape `request`: the strict-mode `TypeError` from
assigning to the `const` binding `config`, or an error `ε` thrown inside
the `try` block (the `fetch`/parse failure). -/
inductive ReqError (ε : Type) : Type
  | constAssignment : ReqError ε
  | thrown (e : ε) : ReqError ε
  deriving Repr

/-- The request-interceptor loop of lines 84-86: with no interceptors the
config passes through untouched; with at least one, the first iteration
evaluates `interceptor(config)` and then throws `TypeError` on the
assignment to the `const` binding. -/
def applyRequestInterceptors (interceptors : List (Config → Config))
    (config : Config) : Except (ReqError ε) Config :=
  match interceptors with
  | [] => .ok config
  | _ :: _ => .error .constAssignment

/-- What the source INTENDS at lines 84-86 (and what the spec describes):
fold the config through the interceptors in registration order. -/
def foldRequestInterceptors (interceptors : List (Config → Config))
    (config : Config) : Config :=
  interceptors.foldl (fun c i => i c) config

/-- The parsed body of a response: `response.json()` when the
`content-type` header contains `application/json`, `response.text()`
otherwise. -/
inductive BodyData (β : Type) : Type
  | json (d : β) : BodyData β
  | text (s : String) : BodyData β
  deriving Repr

/-- The raw transport response the `fetch` oracle yields: status line,
headers, and the values `response.json()` / `response.text()` would produce. -/
structure RawResponse (β : Type) where
  status : Nat
  statusText : String
  headers : Headers
  jsonData : β
  textData : String
  ok : Bool

/-- The Response Envelope built at lines 101-107. -/
structure ResponseObj (δ : Type) where
  data : δ
  status : Nat
  statusText : String
  headers : Headers
  ok : Bool

/-- `contentType && contentType.includes('application/json')`. -/
def wantsJson (contentType : Option String) : Bool :=
  match contentType with
  | none => false
  | some ct => (ct.splitOn "application/json").length > 1

/-- Lines 90-107: parse the body by content type and build the envelope. -/
def mkResponseObj (resp : RawResponse β) : ResponseObj (BodyData β) :=
  { data :=
      if wantsJson (headerGet resp.headers "content-type") then
        .json resp.jsonData
      else
        .text resp.textData
  , status := resp.status
  , statusText := resp.statusText
  , headers := resp.headers
  , ok := resp.ok }

/-- A registered response interceptor: the pair pushed by
`addResponseInterceptor(onFulfilled, onRejected)`, each callback optional. -/
structure RespInterceptor (δ ρ ε : Type) where
  onFulfilled : Option (δ → ρ)
  onRejected : Option (ε → ρ)

/-- The outcome of a `request` call: the envelope returned unmodified
(line 116), a response interceptor callback's return value (lines 112 and
123), or an error thrown to the caller. -/
inductive Outcome (δ ρ ε : Type) : Type
  | envelope (r : δ) : Outcome δ ρ ε
  | result (v : ρ) : Outcome δ ρ ε
  | raised (e : ReqError ε) : Outcome δ ρ ε

/-- The success-path loop of lines 110-116: return the first defined
`onFulfilled` applied to the envelope, else the envelope itself. -/
def runFulfilledLoop (interceptors : List (RespInterceptor δ ρ ε)) (robj : δ) :
    Outcome δ ρ ε :=
  match interceptors with
  | [] => .envelope robj
  | i :: rest =>
      match i.onFulfilled with
      | some f => .result (f robj)
      | none => runFulfilledLoop rest robj

/-- The failure-path loop of lines 120-125: return the first defined
`onRejected` applied to the error, else re-throw the error. -/
def runRejectedLoop (interceptors : List (RespInterceptor δ ρ ε)) (e : ε) :
    Outcome δ ρ ε :=
  match interceptors with
  | [] => .raised (.thrown e)
  | i :: rest =>
      match i.onRejected with
      | some g => .result (g e)
      | none => runRejectedLoop rest e

/-- `request(endpoint, options)` (lines 75-127).  The network call is an
oracle `fetchResult` from the final config to either a raw response or a
thrown error (transport failure).  Interceptor callbacks are modelled as
pure functions. -/
def request (requestInterceptors : List (Config → Config))
    (responseInterceptors : List (RespInterceptor (ResponseObj (BodyData β)) ρ ε))
    (fetchResult : Config → Except ε (RawResponse β))
    (options : RequestOptions) : Outcome (ResponseObj (BodyData β)) ρ ε :=
  match applyRequestInterceptors requestInterceptors (buildConfig options) with
  | .error err => .raised err
  | .ok config =>
      match fetchResult config with
      | .ok resp => runFulfilledLoop responseInterceptors (mkResponseObj resp)
      | .error e => runRejectedLoop responseInterceptors e

/-- Index of the response interceptor the success path selects: the first
one, in registration order, whose `onFulfilled` is defined. -/
def firstFulfilledIdx (interceptors : List (RespInterceptor δ ρ ε)) : Option Nat :=
  interceptors.findIdx? (fun i => i.onFulfilled.isSome)

/-- Index of the response interceptor the failure path selects: the first
one, in registration order, whose `onRejected` is defined. -/
def firstRejectedIdx (interceptors : List (RespInterceptor δ ρ ε)) : Option Nat :=
  interceptors.findIdx? (fun i => i.onRejected.isSome)

/-! ## The built-in interceptors (`setupInterceptors`, lines 26-46, run by
`init` at module load, line 631)

```js
this.addResponseInterceptor(
    (response) => response,
    (error) => \x7b
        if (error.response?.status === 401) \x7b
            this.handleUnauthorized();
        \x7d
        return Promise.reject(error);
    \x7d
);
```
-/

/-- A value a response-interceptor callback can return: the built-in
`onFulfilled` returns the envelope itself, the built-in `onRejected`
returns `Promise.reject(error)`; interceptors registered later may return
anything (modelled by `other`). -/
inductive PipeVal (δ ε : Type) : Type
  | value (r : δ) : PipeVal δ ε
  | rejectedPromise (e : ε) : PipeVal δ ε
  | other (v : JSV) : PipeVal δ ε

/-- The built-in response interceptor pair registered by
`setupInterceptors`: success callback `(response) => response` and failure
callback returning `Promise.reject(error)` (its 401 side effect on the
client state is `builtinOnRejected` below). -/
def builtinRespInterceptor : RespInterceptor δ (PipeVal δ ε) ε :=
  { onFulfilled := some .value
  , onRejected := some .rejectedPromise }

/-- The response-interceptor list right after `init` has run: exactly the
one built-in pair. -/
def initResponseInterceptors : List (RespInterceptor δ (PipeVal δ ε) ε) :=
  [builtinRespInterceptor]

/-- Setting a field of a JS header object
(`config.headers.Authorization = ...`): overwrite in place when present,
append otherwise. -/
def headerSet (hs : Headers) (k v : String) : Headers :=
  if (List.find? (fun p => p.1 == k) hs).isSome then
    hs.map (fun p => if p.1 == k then (k, v) else p)
  else
    hs ++ [(k, v)]

/-- The built-in request interceptor registered by `setupInterceptors`
(lines 28-33): add `Authorization: Bearer <token>` when an auth token is
set. -/
def authRequestInterceptor (authToken : Option String) (config : Config) : Config :=
  match authToken with
  | some tok =>
      { config with headers := headerSet config.headers "Authorization" ("Bearer " ++ tok) }
  | none => config

/-! ## Auth state and `handleUnauthorized` (lines 61-72) -/

/-- The client-visible auth state: the static `authToken` field, the
browser `localStorage` map, and whether the user has been sent to a login
context (either `AuthController.logout()` or the redirect to
`../index.html`, lines 67-71). -/
structure ClientState where
  authToken : Option String
  storage : List (String × String)
  atLoginContext : Bool
  deriving Repr, DecidableEq

/-- `localStorage.removeItem(key)`. -/
def removeItem (storage : List (String × String)) (k : String) :
    List (String × String) :=
  List.filter (fun p => !(p.1 == k)) storage

/-- `localStorage.getItem(key)`. -/
def getItem (storage : List (String × String)) (k : String) : Option String :=
  (List.find? (fun p => p.1 == k) storage).map (·.2)

/-- `handleUnauthorized()`: null the token, remove the `authToken` and
`user` storage entries, and move to a login context. -/
def handleUnauthorized (st : ClientState) : ClientState :=
  { st with
    authToken := none
  , storage := removeItem (removeItem st.storage "authToken") "user"
  , atLoginContext := true }

/-- The error object the failure callback inspects: `error.response?.status`
is `none` when no server response is attached to the error. -/
structure ErrObj where
  responseStatus : Option Int
  message : String := ""
  deriving Repr, DecidableEq

/-- The built-in failure callback (lines 38-44) with its state effect: call
`handleUnauthorized` exactly when the attached response has status 401,
then return `Promise.reject(error)` with the error unchanged. -/
def builtinOnRejected (st : ClientState) (error : ErrObj) :
    ClientState × PipeVal δ ErrObj :=
  ( if error.responseStatus == some 401 then handleUnauthorized st else st
  , .rejectedPromise error )

/-! ## `retryRequest` (lines 567-578)

```js
static async retryRequest(requestFn, maxRetries = 3, delay = 1000) \x7b
    for (let i = 0; i < maxRetries; i++) \x7b
        try \x7b
            return await requestFn();
        \x7d catch (error) \x7b
            if (i === maxRetries - 1) throw error;
            await new Promise(resolve => setTimeout(resolve, delay * Math.pow(2, i)));
        \x7d
    \x7d
\x7d
```

`requestFn` is modelled as the sequence of outcomes of its successive
invocations: `requestFn k` is what the (k+1)-st call returns or throws. -/

/-- What `retryRequest` finally does: return a success value, re-throw the
last error, or — when `maxRetries = 0`, so the loop body never runs —
return `undefined`. -/
inductive RetryOutcome (α ε : Type) : Type
  | success (v : α) : RetryOutcome α ε
  | thrown (e : ε) : RetryOutcome α ε
  | undef : RetryOutcome α ε
  deriving Repr, DecidableEq

/-- A run of `retryRequest`, instrumented with the number of times
`requestFn` was invoked and the list of back-off sleeps performed
(in order, in the units of `delay`). -/
structure RetryTrace (α ε : Type) where
  outcome : RetryOutcome α ε
  calls : Nat
  sleeps : List Nat
  deriving Repr, DecidableEq

/-- The loop of `retryRequest` from iteration `i` on. -/
def retryAux (requestFn : Nat → Except ε α) (maxRetries delay i : Nat) :
    RetryTrace α ε :=
  if _h : i < maxRetries then
    match requestFn i with
    | .ok v => ⟨.success v, 1, []⟩
    | .error e =>
        if i = maxRetries - 1 then
          ⟨.thrown e, 1, []⟩
        else
          let r := retryAux requestFn maxRetries delay (i + 1)
          ⟨r.outcome, r.calls + 1, delay * 2 ^ i :: r.sleeps⟩
  else
    ⟨.undef, 0, []⟩
termination_by maxRetries - i

/-- `retryRequest(requestFn, maxRetries = 3, delay = 1000)`. -/
def retryRequest (requestFn : Nat → Except ε α) (maxRetries : Nat := 3)
    (delay : Nat := 1000) : RetryTrace α ε :=
  retryAux requestFn maxRetries delay 0

/-! ## `getWithCache` (lines 615-627)

```js
static async getWithCache(endpoint, params = \x7b\x7d, cacheKey = null) \x7b
    const key = cacheKey || `$\x7bendpoint\x7d$\x7bJSON.stringify(params)\x7d`;
    const cached = this.getCache(key);
    if (cached) \x7b
        return \x7b data: cached, fromCache: true \x7d;
    \x7d
    const response = await this.get(endpoint, params);
    this.setCache(key, response.data);
    return response;
\x7d
```

`this.get` is modelled as an oracle producing the Response Envelope, and
`JSON.stringify` as an oracle serializing the params object.  Note the two
JS truthiness tests: `cacheKey ||` falls through on the empty string, and
`if (cached)` falls through on a present but falsy cached value. -/

/-- JS `a || b` for an optional string `a`: `null`, `undefined` and the
empty string all fall through to `b`. -/
def jsOrString (a : Option String) (b : String) : String :=
  match a with
  | some s => if s == "" then b else s
  | none => b

/-- What `getWithCache` returns: either the hit object
`\x7b data: cached, fromCache: true \x7d` or the full fresh Response
Envelope. -/
inductive CachedOrFresh (δ : Type) : Type
  | hit (data : δ) : CachedOrFresh δ
  | fresh (r : ResponseObj δ) : CachedOrFresh δ

/-- `getWithCache(endpoint, params, cacheKey)` at time `now`, returning the
result and the cache after the call. -/
def getWithCache (c : CacheMap JSV) (now : Int)
    (doGet : String → π → ResponseObj JSV) (stringify : π → String)
    (endpoint : String) (params : π) (cacheKey : Option String) :
    CachedOrFresh JSV × CacheMap JSV :=
  let key := jsOrString cacheKey (endpoint ++ stringify params)
  let got := getCache c now key
  let freshPath : CachedOrFresh JSV × CacheMap JSV :=
    let response := doGet endpoint params
    (.fresh response, setCache got.2 now key response.data)
  match got.1 with
  | some d => if d.truthy then (.hit d, got.2) else freshPath
  | none => freshPath

/-! ## Helper lemmas on string-keyed association lists -/

/-- Looking a key up after filtering another key out: removal of `k` hides
exactly the bindings of `k` and nothing else. -/
theorem find?_key_filter {β : Type} (l : List (String × β)) (k k' : String) :
    List.find? (fun p => p.1 == k') (List.filter (fun p => !(p.1 == k)) l)
      = if k' = k then none else List.find? (fun p => p.1 == k') l := by
  induction l with
  | nil => simp
  | cons a t ih =>
      simp only [List.filter_cons]
      rcases eq_or_ne a.1 k with hak | hak
      · rcases eq_or_ne k' k with hk | hk
        · simp [hak, hk, ih]
        · have hkk' : (k == k') = false := by
            simp only [beq_eq_false_iff_ne, ne_eq]
            exact fun h => hk h.symm
          simp [hak, hk, ih, List.find?_cons, hkk']
      · rcases eq_or_ne a.1 k' with hak' | hak'
        · rcases eq_or_ne k' k with hk | hk
          · exact absurd (hak'.trans hk) hak
          · simp [hak, hak', hk, List.find?_cons]
        · simp [hak, hak', List.find?_cons, ih]

/-- `getItem` after `removeItem`. -/
theorem getItem_removeItem (s : List (String × String)) (k k' : String) :
    getItem (removeItem s k) k' = if k' = k then none else getItem s k' := by
  unfold getItem removeItem
  rw [find?_key_filter]
  split <;> rfl

/-- `Map.get` after `Map.set`: the set key now maps to the new entry, every
other key is untouched. -/
theorem CacheMap.get_set (c : CacheMap α) (k k' : String) (e : CacheEntry α) :
    (c.set k e).get k' = if k' = k then some e else c.get k' := by
  unfold CacheMap.get CacheMap.set
  rcases eq_or_ne k' k with h | h
  · subst h; simp [List.find?_cons]
  · have hne : (k == k') = false := by
      simp only [beq_eq_false_iff_ne, ne_eq]
      exact fun hh => h hh.symm
    simp only [List.find?_cons, hne, cond_false]
    rw [find?_key_filter]
    simp [h]

/-- `Map.get` after `Map.delete`. -/
theorem CacheMap.get_del (c : CacheMap α) (k k' : String) :
    (c.del k).get k' = if k' = k then none else c.get k' := by
  unfold CacheMap.get CacheMap.del
  rw [find?_key_filter]
  split <;> rfl

/-! ## Claim theorems -/

/-- C10: every input string containing no decimal digit characters
(including the empty string) passes `isValidCreditCard`, because the Luhn
sum over zero digits is 0 and `0 % 10 === 0`; the function never rejects an
input for being too short or non-numeric. -/
theorem c10_no_digits_accepted (s : String) (h : ∀ c ∈ s.data, ¬ c.isDigit) :
    isValidCreditCard s = true := by
  have hnil : stripNonDigits s = [] := by
    unfold stripNonDigits
    rw [List.filter_eq_nil_iff]
    intro c hc
    simpa using h c hc
  unfold isValidCreditCard
  rw [hnil]
  rfl

/-- Witness for C10 at the concrete digit-free inputs `""` and `"abc-"`. -/
theorem c10_no_digits_accepted_witness :
    ((∀ c ∈ "".data, ¬ c.isDigit) ∧ isValidCreditCard "" = true)
    ∧ ((∀ c ∈ "abc-".data, ¬ c.isDigit) ∧ isValidCreditCard "abc-" = true) :=
  ⟨⟨by decide, c10_no_digits_accepted "" (by decide)⟩,
   ⟨by decide, c10_no_digits_accepted "abc-" (by decide)⟩⟩

/-- C7: after `setCache k v ttl` at time `t0`, `getCache k` at time `now`
returns `v` exactly when `now - t0 ≤ ttl`; immediately after the write
(elapsed 0, any non-negative ttl) it returns `v`; a read past the TTL
returns absent AND evicts the entry, so a second read at the very same
time is still absent. -/
theorem c7_cache_ttl (c : CacheMap α) (key : String) (v : α) (t0 ttl now : Int) :
    ((getCache (setCache c t0 key v ttl) now key).1
        = if now - t0 ≤ ttl then some v else none)
    ∧ (0 ≤ ttl → (getCache (setCache c t0 key v ttl) t0 key).1 = some v)
    ∧ (now - t0 > ttl →
        (getCache (setCache c t0 key v ttl) now key).1 = none
        ∧ (getCache ((getCache (setCache c t0 key v ttl) now key).2) now key).1
            = none) := by
  have hget : (setCache c t0 key v ttl).get key
      = some { data := v, timestamp := t0, timeout := ttl } := by
    rw [setCache, CacheMap.get_set, if_pos rfl]
  refine ⟨?_, ?_, ?_⟩
  · rcases le_or_lt (now - t0) ttl with h | h
    · simp [getCache, hget, h, not_lt.mpr h]
    · simp [getCache, hget, h, not_le.mpr h]
  · intro httl
    have hcond : ¬ (ttl < (0 : Int)) := not_lt.mpr httl
    simp [getCache, hget, hcond]
  · intro h
    have h2 : getCache (setCache c t0 key v ttl) now key
        = (none, (setCache c t0 key v ttl).del key) := by
      simp [getCache, hget, h]
    rw [h2]
    exact ⟨rfl, by simp [getCache, CacheMap.get_del]⟩

/-- Witness for C7: write `7` under `"k"` at time 0 with TTL 100; reading
at time 0 yields `7`, reading at time 101 yields absent, and the read at
101 evicted the entry so a second read at 101 is still absent. -/
theorem c7_cache_ttl_witness :
    (getCache (setCache ([] : CacheMap Nat) 0 "k" 7 100) 0 "k").1 = some 7
    ∧ (getCache (setCache ([] : CacheMap Nat) 0 "k" 7 100) 101 "k").1 = none
    ∧ (getCache ((getCache (setCache ([] : CacheMap Nat) 0 "k" 7 100) 101 "k").2)
        101 "k").1 = none := by
  have h0 := c7_cache_ttl ([] : CacheMap Nat) "k" 7 0 100 0
  have h1 := c7_cache_ttl ([] : CacheMap Nat) "k" 7 0 100 101
  exact ⟨h0.2.1 (by decide), (h1.2.2 (by decide)).1, (h1.2.2 (by decide)).2⟩

/-- C6: the built-in failure callback triggers the recovery action exactly
on status 401: it nulls `authToken`, removes the `authToken` and `user`
storage entries and moves to a login context; for every other error
(different status, or no response attached) the client state is left
completely unchanged; in all cases the error itself is propagated
(`Promise.reject(error)`) unmodified. -/
theorem c6_unauthorized_recovery (st : ClientState) (error : ErrObj) :
    (error.responseStatus = some 401 →
        (builtinOnRejected (δ := δ) st error).1.authToken = none
        ∧ getItem (builtinOnRejected (δ := δ) st error).1.storage "authToken" = none
        ∧ getItem (builtinOnRejected (δ := δ) st error).1.storage "user" = none
        ∧ (builtinOnRejected (δ := δ) st error).1.atLoginContext = true)
    ∧ (error.responseStatus ≠ some 401 → (builtinOnRejected (δ := δ) st error).1 = st)
    ∧ (builtinOnRejected (δ := δ) st error).2 = PipeVal.rejectedPromise error := by
  refine ⟨?_, ?_, rfl⟩
  · intro h401
    simp only [builtinOnRejected, h401, BEq.refl, if_pos]
    refine ⟨rfl, ?_, ?_, rfl⟩
    · rw [handleUnauthorized]
      simp only
      rw [getItem_removeItem, if_neg (by decide), getItem_removeItem, if_pos rfl]
    · rw [handleUnauthorized]
      simp only
      rw [getItem_removeItem, if_pos rfl]
  · intro hne
    have : (error.responseStatus == some 401) = false := by
      simp only [beq_eq_false_iff_ne, ne_eq]
      exact hne
    simp [builtinOnRejected, this]

/-- Witness for C6: a 401 error clears a populated state and redirects; a
404 error and a transport error (no response) leave it untouched. -/
theorem c6_unauthorized_recovery_witness :
    ((builtinOnRejected (δ := Unit)
        { authToken := some "t"
        , storage := [("authToken", "t"), ("user", "u")]
        , atLoginContext := false }
        { responseStatus := some 401 }).1.authToken = none
      ∧ getItem (builtinOnRejected (δ := Unit)
        { authToken := some "t"
        , storage := [("authToken", "t"), ("user", "u")]
        , atLoginContext := false }
        { responseStatus := some 401 }).1.storage "authToken" = none
      ∧ getItem (builtinOnRejected (δ := Unit)
        { authToken := some "t"
        , storage := [("authToken", "t"), ("user", "u")]
        , atLoginContext := false }
        { responseStatus := some 401 }).1.storage "user" = none
      ∧ (builtinOnRejected (δ := Unit)
        { authToken := some "t"
        , storage := [("authToken", "t"), ("user", "u")]
        , atLoginContext := false }
        { responseStatus := some 401 }).1.atLoginContext = true)
    ∧ (builtinOnRejected (δ := Unit)
        { authToken := some "t"
        , storage := [("authToken", "t"), ("user", "u")]
        , atLoginContext := false }
        { responseStatus := some 404 }).1
        = { authToken := some "t"
          , storage := [("authToken", "t"), ("user", "u")]
          , atLoginContext := false }
    ∧ (builtinOnRejected (δ := Unit)
        { authToken := some "t"
        , storage := [("authToken", "t"), ("user", "u")]
        , atLoginContext := false }
        { responseStatus := none }).1
        = { authToken := some "t"
          , storage := [("authToken", "t"), ("user", "u")]
          , atLoginContext := false } :=
  ⟨(c6_unauthorized_recovery _ _).1 rfl,
   (c6_unauthorized_recovery _ _).2.1 (by decide),
   (c6_unauthorized_recovery _ _).2.1 (by decide)⟩

/-- C4 counterexample: a caller passing a headers map containing only
`Authorization` does NOT get `Content-Type: application/json` — the spread
`...options` replaces the whole headers object, so the config's headers are
exactly the caller's map and `Content-Type` is absent. -/
theorem c4_headers_merge_counterexample :
    (buildConfig { headers := some [("Authorization", "Bearer tok")] }).headers
      = [("Authorization", "Bearer tok")]
    ∧ headerGet (buildConfig
        { headers := some [("Authorization", "Bearer tok")] }).headers
        "Content-Type" = none
    ∧ ¬ (headerGet (buildConfig
        { headers := some [("Authorization", "Bearer tok")] }).headers
        "Content-Type" = some "application/json") := by
  refine ⟨rfl, by decide, by decide⟩

/-- C4 amended: the merge of the defaults with `options` is a TOP-LEVEL
(shallow) merge: the caller's top-level fields win wholesale, so when the
caller supplies any headers object it replaces the default headers entirely
(default keys the caller did not repeat are lost), and the default headers
(with `Content-Type: application/json`) survive exactly when the caller
supplies no `headers` field at all; the method defaults to `GET` and is
likewise overridden wholesale. -/
theorem c4_headers_shallow_merge (options : RequestOptions) :
    (options.headers = none →
        (buildConfig options).headers = defaultHeaders
        ∧ headerGet (buildConfig options).headers "Content-Type"
            = some "application/json")
    ∧ (∀ h, options.headers = some h → (buildConfig options).headers = h)
    ∧ (options.method = none → (buildConfig options).method = "GET")
    ∧ (∀ m, options.method = some m → (buildConfig options).method = m) := by
  refine ⟨?_, ?_, ?_, ?_⟩
  · intro h
    rw [buildConfig]
    simp [h, defaultHeaders, headerGet]
  · intro hs h
    rw [buildConfig]
    simp [h]
  · intro h
    rw [buildConfig]
    simp [h]
  · intro m h
    rw [buildConfig]
    simp [h]

/-- Witness for C4 (amended): with no caller headers the defaults (and so
`Content-Type: application/json`) are used; with caller headers
`[("Authorization", "Bearer tok")]` the defaults are replaced wholesale. -/
theorem c4_headers_shallow_merge_witness :
    (buildConfig {}).headers = defaultHeaders
    ∧ headerGet (buildConfig {}).headers "Content-Type"
        = some "application/json"
    ∧ (buildConfig { headers := some [("Authorization", "Bearer tok")] }).headers
        = [("Authorization", "Bearer tok")] :=
  ⟨((c4_headers_shallow_merge {}).1 rfl).1,
   ((c4_headers_shallow_merge {}).1 rfl).2,
   (c4_headers_shallow_merge
      { headers := some [("Authorization", "Bearer tok")] }).2.1 _ rfl⟩

/-- A concrete JSON 200 response, used as the output of concrete fetch
oracles below. -/
def sampleRaw : RawResponse JSV :=
  { status := 200
  , statusText := "OK"
  , headers := [("content-type", "application/json")]
  , jsonData := .vObj [("ok", .vBool true)]
  , textData := ""
  , ok := true }

/-- The pipeline-value type of the post-`init` client over JSON data and
`ErrObj` errors, used to instantiate concrete interceptor lists. -/
abbrev RespI : Type :=
  RespInterceptor (ResponseObj (BodyData JSV))
    (PipeVal (ResponseObj (BodyData JSV)) ErrObj) ErrObj

/-- C1 (code bug): the interceptor loop at lines 84-86 assigns to the
`const` binding `config`, so in strict-mode class code EVERY call with at
least one registered request interceptor throws `TypeError` before the
`try` block — the config is never folded and `fetch` is never reached; in
particular this holds in the post-`init` state (where the auth interceptor
is registered) for any fetch oracle.  The last conjunct computes the fold
the spec (and the surrounding code) intends, which is perfectly
well-defined. -/
theorem c1_request_interceptor_fold_bug :
    (∀ (i : Config → Config) (is : List (Config → Config))
        (respIs : List RespI)
        (fetchResult : Config → Except ErrObj (RawResponse JSV))
        (options : RequestOptions),
        request (i :: is) respIs fetchResult options
          = .raised .constAssignment)
    ∧ request [authRequestInterceptor (some "tok")]
        (initResponseInterceptors : List RespI)
        (fun _ => (.ok sampleRaw : Except ErrObj (RawResponse JSV))) {}
        = .raised .constAssignment
    ∧ foldRequestInterceptors [authRequestInterceptor (some "tok")]
        (buildConfig {})
        = { method := "GET"
          , headers := defaultHeaders ++ [("Authorization", "Bearer tok")]
          , body := none } := by
  refine ⟨fun i is respIs fetchResult options => rfl, rfl, ?_⟩
  rw [foldRequestInterceptors]
  decide

/-- The success-path loop skips every interceptor with no `onFulfilled` and
stops at the first one that defines it, returning its result — whatever
comes later in the list. -/
theorem runFulfilledLoop_first (pre : List (RespInterceptor δ ρ ε))
    (i : RespInterceptor δ ρ ε) (post : List (RespInterceptor δ ρ ε))
    (robj : δ) (f : δ → ρ)
    (hpre : ∀ j ∈ pre, j.onFulfilled = none) (hi : i.onFulfilled = some f) :
    runFulfilledLoop (pre ++ i :: post) robj = .result (f robj) := by
  induction pre with
  | nil => simp [runFulfilledLoop, hi]
  | cons a as ih =>
      have ha : a.onFulfilled = none := hpre a (List.mem_cons_self a as)
      simp only [List.cons_append, runFulfilledLoop, ha]
      exact ih (fun j hj => hpre j (List.mem_cons_of_mem a hj))

/-- With no `onFulfilled` anywhere, the success-path loop falls through and
the envelope is returned unmodified. -/
theorem runFulfilledLoop_all_none (is : List (RespInterceptor δ ρ ε)) (robj : δ)
    (h : ∀ j ∈ is, j.onFulfilled = none) :
    runFulfilledLoop is robj = .envelope robj := by
  induction is with
  | nil => rfl
  | cons a as ih =>
      have ha : a.onFulfilled = none := h a (List.mem_cons_self a as)
      simp only [runFulfilledLoop, ha]
      exact ih (fun j hj => h j (List.mem_cons_of_mem a hj))

/-- The failure-path loop stops at the first interceptor defining
`onRejected` and returns its result. -/
theorem runRejectedLoop_first (pre : List (RespInterceptor δ ρ ε))
    (i : RespInterceptor δ ρ ε) (post : List (RespInterceptor δ ρ ε))
    (e : ε) (g : ε → ρ)
    (hpre : ∀ j ∈ pre, j.onRejected = none) (hi : i.onRejected = some g) :
    runRejectedLoop (pre ++ i :: post) e = .result (g e) := by
  induction pre with
  | nil => simp [runRejectedLoop, hi]
  | cons a as ih =>
      have ha : a.onRejected = none := hpre a (List.mem_cons_self a as)
      simp only [List.cons_append, runRejectedLoop, ha]
      exact ih (fun j hj => hpre j (List.mem_cons_of_mem a hj))

/-- With no `onRejected` anywhere, the failure-path loop falls through and
the original error is re-thrown. -/
theorem runRejectedLoop_all_none (is : List (RespInterceptor δ ρ ε)) (e : ε)
    (h : ∀ j ∈ is, j.onRejected = none) :
    runRejectedLoop is e = .raised (.thrown e) := by
  induction is with
  | nil => rfl
  | cons a as ih =>
      have ha : a.onRejected = none := h a (List.mem_cons_self a as)
      simp only [runRejectedLoop, ha]
      exact ih (fun j hj => h j (List.mem_cons_of_mem a hj))

/-- C2: on a call that receives a response (no transport error), `request`
invokes only the FIRST response interceptor, in registration order, whose
success callback is defined and returns that callback's result — whatever
interceptors come later; if no registered interceptor defines a success
callback, the Response Envelope itself is returned unmodified. -/
theorem c2_first_success_interceptor_wins
    (fetchResult : Config → Except ε (RawResponse β)) (options : RequestOptions)
    (raw : RawResponse β)
    (hfetch : fetchResult (buildConfig options) = .ok raw) :
    (∀ (pre : List (RespInterceptor (ResponseObj (BodyData β)) ρ ε)) i post f,
        (∀ j ∈ pre, j.onFulfilled = none) → i.onFulfilled = some f →
        request [] (pre ++ i :: post) fetchResult options
          = .result (f (mkResponseObj raw)))
    ∧ (∀ respIs : List (RespInterceptor (ResponseObj (BodyData β)) ρ ε),
        (∀ j ∈ respIs, j.onFulfilled = none) →
        request [] respIs fetchResult options
          = .envelope (mkResponseObj raw)) := by
  constructor
  · intro pre i post f hpre hi
    simp only [request, applyRequestInterceptors, hfetch]
    exact runFulfilledLoop_first pre i post _ f hpre hi
  · intro respIs hnone
    simp only [request, applyRequestInterceptors, hfetch]
    exact runFulfilledLoop_all_none respIs _ hnone

/-- An interceptor defining only a failure callback. -/
def onlyFailureI : RespI := ⟨none, some PipeVal.rejectedPromise⟩

/-- Success interceptor A: returns the envelope it was given. -/
def successAI : RespI := ⟨some PipeVal.value, none⟩

/-- Success interceptor B, registered after A: returns a distinct marker,
and is dead code on the success path. -/
def successBI : RespI :=
  ⟨some (fun _ => PipeVal.other (.vStr "B")), some PipeVal.rejectedPromise⟩

/-- Witness for C2: with registrations (failure-only, A, B) and a
successful fetch, the call returns A's result (B never runs); with a
single failure-only registration, the envelope comes back unmodified. -/
theorem c2_first_success_interceptor_wins_witness :
    request [] [onlyFailureI, successAI, successBI]
        (fun _ => .ok sampleRaw) {}
      = .result (.value (mkResponseObj sampleRaw))
    ∧ request [] [onlyFailureI] (fun _ => .ok sampleRaw) {}
      = .envelope (mkResponseObj sampleRaw) := by
  have h := c2_first_success_interceptor_wins
    (ρ := PipeVal (ResponseObj (BodyData JSV)) ErrObj)
    (fun _ => (.ok sampleRaw : Except ErrObj (RawResponse JSV))) {}
    sampleRaw rfl
  constructor
  · exact h.1 [onlyFailureI] successAI [successBI] PipeVal.value
      (by intro j hj; rw [List.mem_singleton] at hj; subst hj; rfl) rfl
  · exact h.2 [onlyFailureI]
      (by intro j hj; rw [List.mem_singleton] at hj; subst hj; rfl)

/-- C3: on a call that fails at the transport level (the error is thrown
before an envelope is produced), `request` invokes the FIRST response
interceptor, in registration order, whose failure callback is defined and
returns that callback's result; if no registered interceptor defines a
failure callback, the original error is re-raised unchanged. -/
theorem c3_first_failure_interceptor_wins
    (fetchResult : Config → Except ε (RawResponse β)) (options : RequestOptions)
    (e : ε) (hfetch : fetchResult (buildConfig options) = .error e) :
    (∀ (pre : List (RespInterceptor (ResponseObj (BodyData β)) ρ ε)) i post g,
        (∀ j ∈ pre, j.onRejected = none) → i.onRejected = some g →
        request [] (pre ++ i :: post) fetchResult options = .result (g e))
    ∧ (∀ respIs : List (RespInterceptor (ResponseObj (BodyData β)) ρ ε),
        (∀ j ∈ respIs, j.onRejected = none) →
        request [] respIs fetchResult options = .raised (.thrown e)) := by
  constructor
  · intro pre i post g hpre hi
    simp only [request, applyRequestInterceptors, hfetch]
    exact runRejectedLoop_first pre i post _ g hpre hi
  · intro respIs hnone
    simp only [request, applyRequestInterceptors, hfetch]
    exact runRejectedLoop_all_none respIs _ hnone

/-- A concrete transport error: no response attached. -/
def netErr : ErrObj := { responseStatus := none, message := "network down" }

/-- Witness for C3: with registrations (A success-only, failure-only, B)
and a failing fetch, the call returns the failure-only interceptor's
result; with only success-only registrations the error is re-raised. -/
theorem c3_first_failure_interceptor_wins_witness :
    request [] [successAI, onlyFailureI, successBI]
        (fun _ => .error netErr) {}
      = .result (.rejectedPromise netErr)
    ∧ request [] [successAI] (fun _ => .error netErr) {}
      = .raised (.thrown netErr) := by
  have h := c3_first_failure_interceptor_wins
    (ρ := PipeVal (ResponseObj (BodyData JSV)) ErrObj)
    (fun _ => (.error netErr : Except ErrObj (RawResponse JSV))) {}
    netErr rfl
  constructor
  · exact h.1 [successAI] onlyFailureI [successBI] PipeVal.rejectedPromise
      (by intro j hj; rw [List.mem_singleton] at hj; subst hj; rfl) rfl
  · exact h.2 [successAI]
      (by intro j hj; rw [List.mem_singleton] at hj; subst hj; rfl)

/-- C5: after `init` the response-interceptor list starts with the built-in
pair, whose success callback is defined (the identity on the envelope);
whatever response interceptors `rest` are registered afterwards, both
pipeline passes select index 0 (the built-in), so for EVERY call the
callbacks of `rest` are never invoked: a call with any request interceptor
registered dies on the `const` TypeError, and a call reaching the response
stage returns the built-in's result on both the success and the failure
path, independently of `rest`. -/
theorem c5_later_response_interceptors_dead
    (rest : List (RespInterceptor (ResponseObj (BodyData β))
      (PipeVal (ResponseObj (BodyData β)) ε) ε))
    (fetchResult : Config → Except ε (RawResponse β))
    (options : RequestOptions) :
    initResponseInterceptors ++ rest = builtinRespInterceptor :: rest
    ∧ (builtinRespInterceptor :
        RespInterceptor (ResponseObj (BodyData β))
          (PipeVal (ResponseObj (BodyData β)) ε) ε).onFulfilled
        = some PipeVal.value
    ∧ firstFulfilledIdx (initResponseInterceptors ++ rest) = some 0
    ∧ firstRejectedIdx (initResponseInterceptors ++ rest) = some 0
    ∧ (∀ reqIs, request reqIs (initResponseInterceptors ++ rest)
          fetchResult options
        = match reqIs with
          | [] =>
              match fetchResult (buildConfig options) with
              | .ok raw => .result (.value (mkResponseObj raw))
              | .error e => .result (.rejectedPromise e)
          | _ :: _ => .raised .constAssignment) := by
  refine ⟨rfl, rfl, rfl, rfl, ?_⟩
  intro reqIs
  cases reqIs with
  | nil =>
      cases h : fetchResult (buildConfig options) with
      | ok raw =>
          simp [request, applyRequestInterceptors, h, initResponseInterceptors,
            builtinRespInterceptor, runFulfilledLoop]
      | error e =>
          simp [request, applyRequestInterceptors, h, initResponseInterceptors,
            builtinRespInterceptor, runRejectedLoop]
  | cons a l => rfl

/-- If every iteration from `i` to `m - 1` fails and iteration `m` succeeds
(`m < n`), the retry loop started at iteration `i` returns the success
value after `d + 1 = m - i + 1` calls, sleeping `delay * 2^j` after each
failing iteration `j`. -/
theorem retryAux_success (requestFn : Nat → Except ε α) (n delay m : Nat)
    (v : α) (hm : m < n) (hv : requestFn m = .ok v) :
    ∀ d i, i + d = m → (∀ j, i ≤ j → j < m → ∃ e, requestFn j = .error e) →
    retryAux requestFn n delay i
      = ⟨.success v, d + 1, (List.range' i d).map (fun j => delay * 2 ^ j)⟩ := by
  intro d
  induction d with
  | zero =>
      intro i hi _
      have hi' : i = m := by omega
      subst hi'
      unfold retryAux
      simp [hm, hv]
  | succ d ih =>
      intro i hi hfail
      obtain ⟨e, he⟩ := hfail i le_rfl (by omega)
      have hin : i < n := by omega
      have hine : i ≠ n - 1 := by omega
      have hrec := ih (i + 1) (by omega) (fun j hj1 hj2 => hfail j (by omega) hj2)
      unfold retryAux
      simp [hin, hine, he, hrec, List.range'_succ]

/-- If every iteration from `i` to `n - 1` fails (`i + d + 1 = n`), the
retry loop started at iteration `i` re-throws the error of the LAST
iteration after `d + 1` calls, with a sleep after every failing iteration
except the last. -/
theorem retryAux_thrown (requestFn : Nat → Except ε α) (n delay : Nat)
    (errs : Nat → ε) (hfail : ∀ j, j < n → requestFn j = .error (errs j)) :
    ∀ d i, i + d + 1 = n →
    retryAux requestFn n delay i
      = ⟨.thrown (errs (n - 1)), d + 1,
          (List.range' i d).map (fun j => delay * 2 ^ j)⟩ := by
  intro d
  induction d with
  | zero =>
      intro i hi
      have hin : i < n := by omega
      have hlast : i = n - 1 := by omega
      subst hlast
      unfold retryAux
      simp [hin, hfail _ hin]
  | succ d ih =>
      intro i hi
      have hin : i < n := by omega
      have hine : i ≠ n - 1 := by omega
      have hrec := ih (i + 1) (by omega)
      unfold retryAux
      simp [hin, hine, hfail _ hin, hrec, List.range'_succ]

/-- C9: for `maxAttempts = n ≥ 1`, if `requestFn` succeeds on attempt
`k ≤ n` (all earlier attempts failing), `retryRequest` returns the success
value after exactly `k` invocations, sleeping `delay * 2^i` between
attempts `i+1` and `i+2` and never after the last attempt; if all `n`
attempts fail, the error of the LAST attempt is re-raised after exactly
`n` invocations, with the same back-off sleeps and none after the final
attempt. -/
theorem c9_retry_backoff (requestFn : Nat → Except ε α) (n delay : Nat) :
    (∀ k v, 1 ≤ k → k ≤ n → requestFn (k - 1) = .ok v →
        (∀ j, j < k - 1 → ∃ e, requestFn j = .error e) →
        retryRequest requestFn n delay
          = ⟨.success v, k, (List.range (k - 1)).map (fun j => delay * 2 ^ j)⟩)
    ∧ (∀ errs : Nat → ε, 1 ≤ n →
        (∀ j, j < n → requestFn j = .error (errs j)) →
        retryRequest requestFn n delay
          = ⟨.thrown (errs (n - 1)), n,
              (List.range (n - 1)).map (fun j => delay * 2 ^ j)⟩) := by
  constructor
  · intro k v hk hkn hv hfail
    have h := retryAux_success requestFn n delay (k - 1) v (by omega) hv
      (k - 1) 0 (by omega) (fun j hj1 hj2 => hfail j hj2)
    rw [retryRequest, h, List.range_eq_range']
    congr 1
    omega
  · intro errs hn hfail
    have h := retryAux_thrown requestFn n delay errs hfail (n - 1) 0 (by omega)
    rw [retryRequest, h, List.range_eq_range']
    congr 1
    omega

/-- Witness for C9, matching the spec's own test: with `maxAttempts = 3`
and `baseDelay = 10`, a function failing twice then succeeding runs 3
attempts, returns its success value, and sleeps 10 then 20 between
attempts; an always-failing function re-raises its third error after 3
attempts with the same sleeps. -/
theorem c9_retry_backoff_witness :
    retryRequest
        (fun j => if j < 2 then (.error "boom" : Except String Nat) else .ok 42)
        3 10
      = ⟨.success 42, 3, [10, 20]⟩
    ∧ retryRequest (fun j => (.error (toString j) : Except String Nat)) 3 10
      = ⟨.thrown "2", 3, [10, 20]⟩ := by
  constructor
  · have h := (c9_retry_backoff
        (fun j => if j < 2 then (.error "boom" : Except String Nat) else .ok 42)
        3 10).1 3 42 (by decide) (by decide) rfl
        (fun j hj => ⟨"boom", by simp [hj]⟩)
    rw [h]
    decide
  · have h := (c9_retry_backoff
        (fun j => (.error (toString j) : Except String Nat)) 3 10).2
        (fun j => toString j) (by decide) (fun j hj => rfl)
    rw [h]
    decide

/-- A concrete fresh Response Envelope, used as the output of the `get`
oracle in the `getWithCache` theorems. -/
def freshResp : ResponseObj JSV :=
  { data := .vStr "fresh"
  , status := 200
  , statusText := "OK"
  , headers := []
  , ok := true }

/-- C8 counterexample: the claim fails on two JS truthiness tests.
First, an entry `false` stored under the composite key is PRESENT and
unexpired — a cache hit per the claim — yet `if (cached)` is falsy, so
`getWithCache` takes the miss path and returns the fresh envelope instead
of `\x7b data: false, fromCache: true \x7d`.  Second, an explicit key `""`
is not used: `cacheKey || composite` falls through on the empty string, so
the truthy entry stored under `""` is ignored and the composite key is
looked up instead. -/
theorem c8_read_through_counterexample :
    (getCache (setCache ([] : CacheMap JSV) 0 "/x" (.vBool false)) 0 "/x").1
      = some (.vBool false)
    ∧ (getWithCache (setCache ([] : CacheMap JSV) 0 "/x" (.vBool false)) 0
        (fun _ _ => freshResp) (fun _ => "") "/x" () none).1
      = .fresh freshResp
    ∧ (getCache (setCache ([] : CacheMap JSV) 0 "" (.vStr "v")) 0 "").1
      = some (.vStr "v")
    ∧ (getWithCache (setCache ([] : CacheMap JSV) 0 "" (.vStr "v")) 0
        (fun _ _ => freshResp) (fun _ => "P") "/x" () (some "")).1
      = .fresh freshResp :=
  ⟨rfl, rfl, rfl, rfl⟩

/-- C8 amended: the read-through helper computes its key as
`cacheKey || (endpoint + stringify(params))` — the explicit key is used
when given AND non-empty, the composite otherwise; a present cached value
is returned as the hit shape `\x7b data, fromCache: true \x7d` only when
it is truthy; otherwise (absent, expired, or present-but-falsy) the helper
performs the GET, stores ONLY the envelope's `data` field under the key
(with the default TTL) and returns the full fresh envelope — so hit and
miss return different shapes. -/
theorem c8_read_through_amended (c : CacheMap JSV) (now : Int)
    (doGet : String → π → ResponseObj JSV) (stringify : π → String)
    (endpoint : String) (params : π) (cacheKey : Option String) (key : String)
    (hkey : key = jsOrString cacheKey (endpoint ++ stringify params)) :
    (∀ s, cacheKey = some s → s ≠ "" → key = s)
    ∧ (cacheKey = none ∨ cacheKey = some "" →
        key = endpoint ++ stringify params)
    ∧ (∀ d, (getCache c now key).1 = some d → d.truthy = true →
        getWithCache c now doGet stringify endpoint params cacheKey
          = (.hit d, (getCache c now key).2))
    ∧ ((getCache c now key).1 = none ∨
        (∃ d, (getCache c now key).1 = some d ∧ d.truthy = false) →
        getWithCache c now doGet stringify endpoint params cacheKey
          = (.fresh (doGet endpoint params),
             setCache (getCache c now key).2 now key
               (doGet endpoint params).data)) := by
  subst hkey
  refine ⟨?_, ?_, ?_, ?_⟩
  · intro s hs hne
    simp [jsOrString, hs, hne]
  · rintro (h | h) <;> simp [jsOrString, h]
  · intro d hd htruthy
    simp [getWithCache, hd, htruthy]
  · rintro (h | ⟨d, hd, hf⟩)
    · simp [getWithCache, h]
    · simp [getWithCache, hd, hf]

/-- Witness for C8 (amended): a truthy cached value under the composite
key comes back in the hit shape with the cache untouched; an empty cache
leads to the GET, the envelope's `data` field alone being cached under the
composite key, and the full envelope being returned. -/
theorem c8_read_through_amended_witness :
    getWithCache (setCache ([] : CacheMap JSV) 0 "/xP" (.vStr "v")) 0
        (fun _ _ => freshResp) (fun _ => "P") "/x" () none
      = (.hit (.vStr "v"), setCache ([] : CacheMap JSV) 0 "/xP" (.vStr "v"))
    ∧ getWithCache ([] : CacheMap JSV) 0 (fun _ _ => freshResp)
        (fun _ => "P") "/x" () none
      = (.fresh freshResp,
         setCache ([] : CacheMap JSV) 0 "/xP" freshResp.data) := by
  constructor
  · exact (c8_read_through_amended
      (setCache ([] : CacheMap JSV) 0 "/xP" (.vStr "v")) 0
      (fun _ _ => freshResp) (fun _ => "P") "/x" () none "/xP" rfl).2.2.1
      (.vStr "v") rfl rfl
  · exact (c8_read_through_amended ([] : CacheMap JSV) 0
      (fun _ _ => freshResp) (fun _ => "P") "/x" () none "/xP" rfl).2.2.2
      (Or.inl rfl)

end Fence
